import Mathlib

/-!
Shallow embedding of the concurrent CEP (postal code) lookup program.

The repository holds two near-identical variants of one Go program:
  * `src/main.go` — the aggregation-capable variant: two fetch goroutines, a
    buffered completion channel of capacity 2, a shared timing map guarded by
    a mutex, and a detached aggregation goroutine (namespace `Main` below);
  * `src/unnamed/part_000` — the simpler variant without timing aggregation
    (namespace `Simple` below).

External effects (HTTP request construction, the transport call, the status
code, body reading, JSON decoding, the measured elapsed time) are supplied by
a `NetEnv` oracle; each fetch function is translated into a function from the
oracle to the ordered list of events it performs (network call, body read,
mutex lock/unlock, timing-map write, channel send), mirroring the Go control
flow line by line.  Durations are nanosecond counts (`Nat`), as in Go's
`time.Duration`; Go `error` values are modelled as their message strings, and
`fmt.Errorf("status code: %d", n)` as the string `"status code: " ++ toString n`.
-/

/-- `BrasilAPICEP` — the structure returned by BrasilAPI (src/main.go lines 15-22). -/
structure BrasilAPICEP where
  Cep : String
  State : String
  City : String
  Neighborhood : String
  Street : String
  Service : String
deriving Repr, DecidableEq

/-- `ViaCEP` — the structure returned by the ViaCEP API (src/main.go lines 25-36). -/
structure ViaCEP where
  Cep : String
  Logradouro : String
  Complemento : String
  Bairro : String
  Localidade : String
  Uf : String
  Ibge : String
  Gia : String
  Ddd : String
  Siafi : String
deriving Repr, DecidableEq

/-- The dynamic payload stored in `Response.Data` (Go `interface\x7b\x7d`): at runtime it
is either a `BrasilAPICEP` or a `ViaCEP` value (the only two types ever stored). -/
inductive CepData where
  | brasil (d : BrasilAPICEP)
  | via (d : ViaCEP)
deriving Repr, DecidableEq

/-- Outcome of `client.Do`: the HTTP response's status code together with the
behaviour of `io.ReadAll(resp.Body)` (either a read error or the body bytes). -/
structure HttpResp where
  statusCode : Nat
  readAll : Except String String

/-- Oracle for one fetch invocation's external effects, in the order the Go code
consults them: `http.NewRequestWithContext` (may fail), `client.Do` (may fail,
else yields an `HttpResp`), `json.Unmarshal` on the body it obtained, and the
value `time.Since(startTime)` evaluates to (nanoseconds). -/
structure NetEnv (α : Type) where
  newRequest : Except String Unit
  doResult : Except String HttpResp
  unmarshal : String → Except String α
  elapsed : Nat

/-- The decoded payload the fetch ends with when every external step succeeds
(request built, transport ok, status 200, body read, decode ok); `none` on any
failure path. -/
def successData? {α : Type} (env : NetEnv α) : Option α :=
  match env.newRequest with
  | .error _ => none
  | .ok _ =>
    match env.doResult with
    | .error _ => none
    | .ok resp =>
      if resp.statusCode ≠ 200 then none
      else
        match resp.readAll with
        | .error _ => none
        | .ok body => (env.unmarshal body).toOption

/-- Normalized address fields as printed by both variants' `switch` on
`result.Data` ("CEP / Estado / Cidade / Bairro / Rua"). -/
structure PrintedAddress where
  cep : String
  estado : String
  cidade : String
  bairro : String
  rua : String
deriving Repr, DecidableEq

/-- The `switch data := result.Data.(type)` of both variants (src/main.go lines
84-91, src/unnamed/part_000 lines 74-81): a `BrasilAPICEP` payload prints
cep/state/city/neighborhood/street, a `ViaCEP` payload prints
cep/uf/localidade/bairro/logradouro; a nil payload matches neither case. -/
def printAddr : Option CepData → Option PrintedAddress
  | some (.brasil d) => some ⟨d.Cep, d.State, d.City, d.Neighborhood, d.Street⟩
  | some (.via d) => some ⟨d.Cep, d.Uf, d.Localidade, d.Bairro, d.Logradouro⟩
  | none => none

/-- The five printed lines of the address block, in print order. -/
def addressLines (p : PrintedAddress) : List String :=
  ["CEP: " ++ p.cep, "Estado: " ++ p.estado, "Cidade: " ++ p.cidade,
   "Bairro: " ++ p.bairro, "Rua: " ++ p.rua]

namespace Main

/-- `Response` of src/main.go lines 39-44: payload (nil on failure), API name,
error (nil on success) and elapsed duration in nanoseconds. -/
structure Response where
  Data : Option CepData
  APIName : String
  Error : Option String
  Duration : Nat
deriving Repr, DecidableEq

/-- One observable event of a fetch goroutine, in program order: the transport
call (`client.Do`), the body read (`io.ReadAll`), mutex acquire/release, a
write into the shared timing map, and a send on the completion channel. -/
inductive FetchEvent where
  | netCall
  | bodyRead
  | lock
  | mapWrite (api : String) (d : Nat)
  | unlock
  | send (r : Response)
deriving Repr, DecidableEq

/-- The responses a trace sends on the completion channel, in order. -/
def sends (t : List FetchEvent) : List Response :=
  t.filterMap fun e =>
    match e with
    | .send r => some r
    | _ => none

/-- Number of completion-channel sends in a trace. -/
def sendCount (t : List FetchEvent) : Nat :=
  (sends t).length

/-- The timing-map writes a trace performs, in order. -/
def mapWrites (t : List FetchEvent) : List (String × Nat) :=
  t.filterMap fun e =>
    match e with
    | .mapWrite api d => some (api, d)
    | _ => none

/-- `true` when no timing-map write occurs after a channel send: the duration
is recorded strictly before the result is published. -/
def noWriteAfterSend : List FetchEvent → Bool
  | [] => true
  | .send _ :: rest =>
      (rest.all fun e =>
        match e with
        | .mapWrite _ _ => false
        | _ => true) && noWriteAfterSend rest
  | _ :: rest => noWriteAfterSend rest

/-- Mutex discipline scanner. `lockDiscipline t held` holds when, starting with
the mutex state `held`, locks and unlocks alternate correctly, every timing-map
write happens with the mutex held, no network call, body read or channel send
happens with the mutex held, and the mutex is released by the end of the trace:
the lock protects exactly the single map insert and is never held across I/O. -/
def lockDiscipline : List FetchEvent → Bool → Bool
  | [], held => !held
  | .lock :: rest, held => !held && lockDiscipline rest true
  | .unlock :: rest, held => held && lockDiscipline rest false
  | .netCall :: rest, held => !held && lockDiscipline rest held
  | .bodyRead :: rest, held => !held && lockDiscipline rest held
  | .send _ :: rest, held => !held && lockDiscipline rest held
  | .mapWrite _ _ :: rest, held => held && lockDiscipline rest held

/-- Go map assignment `m[k] = v`: overwrite the entry for `k` if present,
otherwise append it. -/
def mapStore (m : List (String × Nat)) (k : String) (v : Nat) : List (String × Nat) :=
  if m.any (fun p => p.1 == k) then m.map (fun p => if p.1 == k then (k, v) else p)
  else m ++ [(k, v)]

/-- Go map read `m[k]`. -/
def mapLookup (m : List (String × Nat)) (k : String) : Option Nat :=
  (m.find? fun p => p.1 == k).map (·.2)

/-- Apply a sequence of timing-map writes to a map state, oldest first. -/
def applyWrites (ws : List (String × Nat)) (m : List (String × Nat)) : List (String × Nat) :=
  ws.foldl (fun acc w => mapStore acc w.1 w.2) m

/-- `fetchBrasilAPI` (src/main.go lines 146-191) as the ordered event trace it
produces under the oracle `env`.  Every early `return` follows a single channel
send carrying the error; the success path locks the mutex, stores the duration
under "BrasilAPI", unlocks, then sends the success response. -/
def fetchBrasilAPI (env : NetEnv BrasilAPICEP) : List FetchEvent :=
  match env.newRequest with
  | .error e => [.send ⟨none, "BrasilAPI", some e, env.elapsed⟩]
  | .ok _ =>
    match env.doResult with
    | .error e => [.netCall, .send ⟨none, "BrasilAPI", some e, env.elapsed⟩]
    | .ok resp =>
      if resp.statusCode ≠ 200 then
        [.netCall,
         .send ⟨none, "BrasilAPI", some ("status code: " ++ toString resp.statusCode), env.elapsed⟩]
      else
        match resp.readAll with
        | .error e => [.netCall, .bodyRead, .send ⟨none, "BrasilAPI", some e, env.elapsed⟩]
        | .ok body =>
          match env.unmarshal body with
          | .error e => [.netCall, .bodyRead, .send ⟨none, "BrasilAPI", some e, env.elapsed⟩]
          | .ok data =>
            [.netCall, .bodyRead, .lock, .mapWrite "BrasilAPI" env.elapsed, .unlock,
             .send ⟨some (.brasil data), "BrasilAPI", none, env.elapsed⟩]

/-- `fetchViaCEP` (src/main.go lines 193-238), identically structured to
`fetchBrasilAPI` but for the ViaCEP endpoint and payload shape. -/
def fetchViaCEP (env : NetEnv ViaCEP) : List FetchEvent :=
  match env.newRequest with
  | .error e => [.send ⟨none, "ViaCEP", some e, env.elapsed⟩]
  | .ok _ =>
    match env.doResult with
    | .error e => [.netCall, .send ⟨none, "ViaCEP", some e, env.elapsed⟩]
    | .ok resp =>
      if resp.statusCode ≠ 200 then
        [.netCall,
         .send ⟨none, "ViaCEP", some ("status code: " ++ toString resp.statusCode), env.elapsed⟩]
      else
        match resp.readAll with
        | .error e => [.netCall, .bodyRead, .send ⟨none, "ViaCEP", some e, env.elapsed⟩]
        | .ok body =>
          match env.unmarshal body with
          | .error e => [.netCall, .bodyRead, .send ⟨none, "ViaCEP", some e, env.elapsed⟩]
          | .ok data =>
            [.netCall, .bodyRead, .lock, .mapWrite "ViaCEP" env.elapsed, .unlock,
             .send ⟨some (.via data), "ViaCEP", none, env.elapsed⟩]

/-- Nanoseconds in Go's `time.Second`. -/
def timeSecond : Nat := 1000000000

/-- The shared cancellation deadline: `context.WithTimeout(context.Background(),
1*time.Second)` at src/main.go line 56, in nanoseconds. -/
def contextTimeoutNanos : Nat := 1 * timeSecond

/-- Capacity of the completion channel: `make(chan Response, 2)` at line 60. -/
def resultChanCapacity : Nat := 2

/-- Number of launched lookup goroutines: the two `go fetch...` statements at
lines 71-72. -/
def numLookupTasks : Nat := 2

/-- What the coordinator's single `select` (line 75) observes first: either a
value arriving on `resultChan`, or `ctx.Done()` firing at the deadline. -/
inductive RaceOutcome where
  | received (r : Response)
  | ctxDone
deriving Repr

/-- The coordinator's user-visible report. -/
inductive MainOutcome where
  | apiError (apiName : String) (err : String)
  | success (apiName : String) (duration : Nat) (addr : Option PrintedAddress)
  | timeoutMessage
deriving Repr, DecidableEq

/-- The fastest/slowest/difference block the aggregation goroutine prints, or
the comparison-unavailable message.  The difference is in nanoseconds, signed
as the code's subtraction is. -/
inductive AggReport where
  | comparison (fastest : String) (fastestTime : Nat) (slowest : String)
      (slowestTime : Nat) (difference : Int)
  | unavailable
deriving Repr, DecidableEq

/-- The `for api, duration := range timingResults` loop of src/main.go lines
112-121, folding one map entry into the running
(fastest, fastestTime, slowest, slowestTime) state. -/
def aggLoop : List (String × Nat) → String × Nat × String × Nat → String × Nat × String × Nat
  | [], st => st
  | (api, duration) :: rest, (fastest, fastestTime, slowest, slowestTime) =>
    let fPair := if fastest = "" ∨ duration < fastestTime then (api, duration)
                 else (fastest, fastestTime)
    let sPair := if slowest = "" ∨ duration > slowestTime then (api, duration)
                 else (slowest, slowestTime)
    aggLoop rest (fPair.1, fPair.2, sPair.1, sPair.2)

/-- The aggregation goroutine's body (src/main.go lines 107-133): if the timing
map has more than one entry, scan it for the fastest and slowest entries and
report them with their difference; otherwise report that the comparison is
unavailable. -/
def aggregate (timingResults : List (String × Nat)) : AggReport :=
  if timingResults.length > 1 then
    let st := aggLoop timingResults ("", 0, "", 0)
    .comparison st.1 st.2.1 st.2.2.1 st.2.2.2 ((st.2.2.2 : Int) - (st.2.1 : Int))
  else .unavailable

/-- What one whole run of `main` after argument parsing does, as a function of
what the first `select` observed and of the timing map's final contents:
the printed outcome, the aggregation goroutine's report (`none` when `main`
returned before spawning it, lines 79 and 94), and whether the channel-draining
`select` at line 137 was reached. -/
structure MainResult where
  outcome : MainOutcome
  aggReport : Option AggReport
  drainsChannel : Bool
deriving Repr, DecidableEq

/-- The coordinator logic of src/main.go lines 75-143: on a first-arriving
error response, print the error and return (no aggregation, no drain); on a
first-arriving success, print the winner and its address fields, spawn the
aggregation goroutine and drain one more channel slot; if the deadline fires
first, print the timeout message and return. -/
def mainRun (race : RaceOutcome) (timingResults : List (String × Nat)) : MainResult :=
  match race with
  | .received result =>
    match result.Error with
    | some e => ⟨.apiError result.APIName e, none, false⟩
    | none =>
      ⟨.success result.APIName result.Duration (printAddr result.Data),
       some (aggregate timingResults), true⟩
  | .ctxDone => ⟨.timeoutMessage, none, false⟩

/-- Whole-program behaviour including argument parsing (lines 47-50): with
fewer than two entries in `os.Args` print the usage hint and return at once. -/
inductive ProgramResult where
  | usageHint
  | ran (res : MainResult)
deriving Repr, DecidableEq

/-- `main` of src/main.go: `argv` models `os.Args` (program name first). -/
def goMain (argv : List String) (race : RaceOutcome)
    (timingResults : List (String × Nat)) : ProgramResult :=
  if argv.length < 2 then .usageHint else .ran (mainRun race timingResults)

end Main

namespace Simple

/-- `Response` of src/unnamed/part_000 lines 38-42: like the other variant's
but without the `Duration` field. -/
structure Response where
  Data : Option CepData
  APIName : String
  Error : Option String
deriving Repr, DecidableEq

/-- Observable events of this variant's fetch goroutines: no mutex and no
timing map exist here, only the transport call, the body read and the send. -/
inductive FetchEvent where
  | netCall
  | bodyRead
  | send (r : Response)
deriving Repr, DecidableEq

/-- The responses a trace sends on the completion channel, in order. -/
def sends (t : List FetchEvent) : List Response :=
  t.filterMap fun e =>
    match e with
    | .send r => some r
    | _ => none

/-- Number of completion-channel sends in a trace. -/
def sendCount (t : List FetchEvent) : Nat :=
  (sends t).length

/-- `fetchBrasilAPI` (src/unnamed/part_000 lines 87-121) as its event trace. -/
def fetchBrasilAPI (env : NetEnv BrasilAPICEP) : List FetchEvent :=
  match env.newRequest with
  | .error e => [.send ⟨none, "BrasilAPI", some e⟩]
  | .ok _ =>
    match env.doResult with
    | .error e => [.netCall, .send ⟨none, "BrasilAPI", some e⟩]
    | .ok resp =>
      if resp.statusCode ≠ 200 then
        [.netCall, .send ⟨none, "BrasilAPI", some ("status code: " ++ toString resp.statusCode)⟩]
      else
        match resp.readAll with
        | .error e => [.netCall, .bodyRead, .send ⟨none, "BrasilAPI", some e⟩]
        | .ok body =>
          match env.unmarshal body with
          | .error e => [.netCall, .bodyRead, .send ⟨none, "BrasilAPI", some e⟩]
          | .ok data => [.netCall, .bodyRead, .send ⟨some (.brasil data), "BrasilAPI", none⟩]

/-- `fetchViaCEP` (src/unnamed/part_000 lines 123-157) as its event trace. -/
def fetchViaCEP (env : NetEnv ViaCEP) : List FetchEvent :=
  match env.newRequest with
  | .error e => [.send ⟨none, "ViaCEP", some e⟩]
  | .ok _ =>
    match env.doResult with
    | .error e => [.netCall, .send ⟨none, "ViaCEP", some e⟩]
    | .ok resp =>
      if resp.statusCode ≠ 200 then
        [.netCall, .send ⟨none, "ViaCEP", some ("status code: " ++ toString resp.statusCode)⟩]
      else
        match resp.readAll with
        | .error e => [.netCall, .bodyRead, .send ⟨none, "ViaCEP", some e⟩]
        | .ok body =>
          match env.unmarshal body with
          | .error e => [.netCall, .bodyRead, .send ⟨none, "ViaCEP", some e⟩]
          | .ok data => [.netCall, .bodyRead, .send ⟨some (.via data), "ViaCEP", none⟩]

/-- The shared cancellation deadline: `context.WithTimeout(context.Background(),
1*time.Second)` at src/unnamed/part_000 line 54, in nanoseconds. -/
def contextTimeoutNanos : Nat := 1 * Main.timeSecond

/-- Capacity of the completion channel: `make(chan Response, 2)` at line 58. -/
def resultChanCapacity : Nat := 2

/-- Number of launched lookup goroutines: the two `go fetch...` statements at
lines 61-62. -/
def numLookupTasks : Nat := 2

/-- What this variant's `select` (line 65) observes first. -/
inductive RaceOutcome where
  | received (r : Response)
  | ctxDone
deriving Repr

/-- This variant's user-visible report (no duration is printed). -/
inductive MainOutcome where
  | apiError (apiName : String) (err : String)
  | success (apiName : String) (addr : Option PrintedAddress)
  | timeoutMessage
deriving Repr, DecidableEq

/-- The `select` of src/unnamed/part_000 lines 65-84: report the first arriving
response (its error, or the winner's name and address fields), or the timeout
message if the deadline fires first; `main` ends right after in every case. -/
def mainSelect (race : RaceOutcome) : MainOutcome :=
  match race with
  | .received result =>
    match result.Error with
    | some e => .apiError result.APIName e
    | none => .success result.APIName (printAddr result.Data)
  | .ctxDone => .timeoutMessage

end Simple

/-! Helper lemmas: full path analysis of the four fetch functions. -/

theorem Main.sendCount_fetchBrasilAPI (env : NetEnv BrasilAPICEP) :
    Main.sendCount (Main.fetchBrasilAPI env) = 1 := by
  rcases env with ⟨nr, dr, um, el⟩
  rcases nr with e | u
  · rfl
  · rcases dr with e | ⟨code, ra⟩
    · rfl
    · by_cases h : code ≠ 200
      · simp [Main.fetchBrasilAPI, h, Main.sendCount, Main.sends]
      · rcases ra with e | body
        · simp [Main.fetchBrasilAPI, h, Main.sendCount, Main.sends]
        · rcases hum : um body with e | d <;>
            simp [Main.fetchBrasilAPI, h, hum, Main.sendCount, Main.sends]

theorem Main.sendCount_fetchViaCEP (env : NetEnv ViaCEP) :
    Main.sendCount (Main.fetchViaCEP env) = 1 := by
  rcases env with ⟨nr, dr, um, el⟩
  rcases nr with e | u
  · rfl
  · rcases dr with e | ⟨code, ra⟩
    · rfl
    · by_cases h : code ≠ 200
      · simp [Main.fetchViaCEP, h, Main.sendCount, Main.sends]
      · rcases ra with e | body
        · simp [Main.fetchViaCEP, h, Main.sendCount, Main.sends]
        · rcases hum : um body with e | d <;>
            simp [Main.fetchViaCEP, h, hum, Main.sendCount, Main.sends]

theorem Simple.sendCount_fetchBrasilAPI_s (env : NetEnv BrasilAPICEP) :
    Simple.sendCount (Simple.fetchBrasilAPI env) = 1 := by
  rcases env with ⟨nr, dr, um, el⟩
  rcases nr with e | u
  · rfl
  · rcases dr with e | ⟨code, ra⟩
    · rfl
    · by_cases h : code ≠ 200
      · simp [Simple.fetchBrasilAPI, h, Simple.sendCount, Simple.sends]
      · rcases ra with e | body
        · simp [Simple.fetchBrasilAPI, h, Simple.sendCount, Simple.sends]
        · rcases hum : um body with e | d <;>
            simp [Simple.fetchBrasilAPI, h, hum, Simple.sendCount, Simple.sends]

theorem Simple.sendCount_fetchViaCEP_s (env : NetEnv ViaCEP) :
    Simple.sendCount (Simple.fetchViaCEP env) = 1 := by
  rcases env with ⟨nr, dr, um, el⟩
  rcases nr with e | u
  · rfl
  · rcases dr with e | ⟨code, ra⟩
    · rfl
    · by_cases h : code ≠ 200
      · simp [Simple.fetchViaCEP, h, Simple.sendCount, Simple.sends]
      · rcases ra with e | body
        · simp [Simple.fetchViaCEP, h, Simple.sendCount, Simple.sends]
        · rcases hum : um body with e | d <;>
            simp [Simple.fetchViaCEP, h, hum, Simple.sendCount, Simple.sends]

theorem Main.fetchBrasilAPI_success (env : NetEnv BrasilAPICEP) (d : BrasilAPICEP)
    (h : successData? env = some d) :
    Main.fetchBrasilAPI env =
      [.netCall, .bodyRead, .lock, .mapWrite "BrasilAPI" env.elapsed, .unlock,
       .send ⟨some (.brasil d), "BrasilAPI", none, env.elapsed⟩] := by
  rcases env with ⟨nr, dr, um, el⟩
  rcases nr with e | u
  · simp [successData?] at h
  · rcases dr with e | ⟨code, ra⟩
    · simp [successData?] at h
    · by_cases hc : code ≠ 200
      · simp [successData?, hc] at h
      · rcases ra with e | body
        · simp [successData?, hc] at h
        · rcases hum : um body with e | d2
          · simp [successData?, hc, hum, Except.toOption] at h
          · simp [successData?, hc, hum, Except.toOption] at h
            simp [Main.fetchBrasilAPI, hc, hum, h]

theorem Main.fetchViaCEP_success (env : NetEnv ViaCEP) (d : ViaCEP)
    (h : successData? env = some d) :
    Main.fetchViaCEP env =
      [.netCall, .bodyRead, .lock, .mapWrite "ViaCEP" env.elapsed, .unlock,
       .send ⟨some (.via d), "ViaCEP", none, env.elapsed⟩] := by
  rcases env with ⟨nr, dr, um, el⟩
  rcases nr with e | u
  · simp [successData?] at h
  · rcases dr with e | ⟨code, ra⟩
    · simp [successData?] at h
    · by_cases hc : code ≠ 200
      · simp [successData?, hc] at h
      · rcases ra with e | body
        · simp [successData?, hc] at h
        · rcases hum : um body with e | d2
          · simp [successData?, hc, hum, Except.toOption] at h
          · simp [successData?, hc, hum, Except.toOption] at h
            simp [Main.fetchViaCEP, hc, hum, h]

theorem Main.mapWrites_fetchBrasilAPI_of_fail (env : NetEnv BrasilAPICEP)
    (h : successData? env = none) :
    Main.mapWrites (Main.fetchBrasilAPI env) = [] := by
  rcases env with ⟨nr, dr, um, el⟩
  rcases nr with e | u
  · rfl
  · rcases dr with e | ⟨code, ra⟩
    · rfl
    · by_cases hc : code ≠ 200
      · simp [Main.fetchBrasilAPI, hc, Main.mapWrites]
      · rcases ra with e | body
        · simp [Main.fetchBrasilAPI, hc, Main.mapWrites]
        · rcases hum : um body with e | d
          · simp [Main.fetchBrasilAPI, hc, hum, Main.mapWrites]
          · simp [successData?, hc, hum, Except.toOption] at h

theorem Main.mapWrites_fetchViaCEP_of_fail (env : NetEnv ViaCEP)
    (h : successData? env = none) :
    Main.mapWrites (Main.fetchViaCEP env) = [] := by
  rcases env with ⟨nr, dr, um, el⟩
  rcases nr with e | u
  · rfl
  · rcases dr with e | ⟨code, ra⟩
    · rfl
    · by_cases hc : code ≠ 200
      · simp [Main.fetchViaCEP, hc, Main.mapWrites]
      · rcases ra with e | body
        · simp [Main.fetchViaCEP, hc, Main.mapWrites]
        · rcases hum : um body with e | d
          · simp [Main.fetchViaCEP, hc, hum, Main.mapWrites]
          · simp [successData?, hc, hum, Except.toOption] at h

theorem Main.lockDiscipline_fetchBrasilAPI (env : NetEnv BrasilAPICEP) :
    Main.lockDiscipline (Main.fetchBrasilAPI env) false = true := by
  rcases env with ⟨nr, dr, um, el⟩
  rcases nr with e | u
  · rfl
  · rcases dr with e | ⟨code, ra⟩
    · rfl
    · by_cases h : code ≠ 200
      · simp [Main.fetchBrasilAPI, h, Main.lockDiscipline]
      · rcases ra with e | body
        · simp [Main.fetchBrasilAPI, h, Main.lockDiscipline]
        · rcases hum : um body with e | d <;>
            simp [Main.fetchBrasilAPI, h, hum, Main.lockDiscipline]

theorem Main.lockDiscipline_fetchViaCEP (env : NetEnv ViaCEP) :
    Main.lockDiscipline (Main.fetchViaCEP env) false = true := by
  rcases env with ⟨nr, dr, um, el⟩
  rcases nr with e | u
  · rfl
  · rcases dr with e | ⟨code, ra⟩
    · rfl
    · by_cases h : code ≠ 200
      · simp [Main.fetchViaCEP, h, Main.lockDiscipline]
      · rcases ra with e | body
        · simp [Main.fetchViaCEP, h, Main.lockDiscipline]
        · rcases hum : um body with e | d <;>
            simp [Main.fetchViaCEP, h, hum, Main.lockDiscipline]

theorem Main.noWriteAfterSend_fetchBrasilAPI (env : NetEnv BrasilAPICEP) :
    Main.noWriteAfterSend (Main.fetchBrasilAPI env) = true := by
  rcases env with ⟨nr, dr, um, el⟩
  rcases nr with e | u
  · rfl
  · rcases dr with e | ⟨code, ra⟩
    · rfl
    · by_cases h : code ≠ 200
      · simp [Main.fetchBrasilAPI, h, Main.noWriteAfterSend]
      · rcases ra with e | body
        · simp [Main.fetchBrasilAPI, h, Main.noWriteAfterSend]
        · rcases hum : um body with e | d <;>
            simp [Main.fetchBrasilAPI, h, hum, Main.noWriteAfterSend]

theorem Main.noWriteAfterSend_fetchViaCEP (env : NetEnv ViaCEP) :
    Main.noWriteAfterSend (Main.fetchViaCEP env) = true := by
  rcases env with ⟨nr, dr, um, el⟩
  rcases nr with e | u
  · rfl
  · rcases dr with e | ⟨code, ra⟩
    · rfl
    · by_cases h : code ≠ 200
      · simp [Main.fetchViaCEP, h, Main.noWriteAfterSend]
      · rcases ra with e | body
        · simp [Main.fetchViaCEP, h, Main.noWriteAfterSend]
        · rcases hum : um body with e | d <;>
            simp [Main.fetchViaCEP, h, hum, Main.noWriteAfterSend]

/-! Claim theorems. -/

/-- C1: with a postal-code argument present, the coordinator's reported outcome
equals the first value arriving on the completion channel: a first-arriving
success is reported immediately with its backend identifier and address fields
(without waiting for the other task), while a first-arriving failure is
reported as that backend's failure and the program stops — no aggregation, no
channel drain, no fallback to the other backend.  Stated for both variants. -/
theorem first_arrival_decides (argv : List String) (hargv : 2 ≤ argv.length)
    (r : Main.Response) (rs : Simple.Response) (timings : List (String × Nat)) :
    (∀ e, r.Error = some e →
      Main.goMain argv (.received r) timings =
        .ran ⟨.apiError r.APIName e, none, false⟩) ∧
    (r.Error = none →
      Main.goMain argv (.received r) timings =
        .ran ⟨.success r.APIName r.Duration (printAddr r.Data),
              some (Main.aggregate timings), true⟩) ∧
    (∀ e, rs.Error = some e →
      Simple.mainSelect (.received rs) = .apiError rs.APIName e) ∧
    (rs.Error = none →
      Simple.mainSelect (.received rs) = .success rs.APIName (printAddr rs.Data)) := by
  have h2 : ¬ argv.length < 2 := Nat.not_lt.mpr hargv
  refine ⟨fun e he => ?_, fun hn => ?_, fun e he => ?_, fun hn => ?_⟩
  · simp [Main.goMain, Main.mainRun, h2, he]
  · simp [Main.goMain, Main.mainRun, h2, hn]
  · simp [Simple.mainSelect, he]
  · simp [Simple.mainSelect, hn]

/-- Witness for C1 at a concrete first-arriving failure: the reported outcome
is that backend's error, with no aggregation and no drain. -/
theorem first_arrival_decides_witness :
    Main.goMain ["cmd", "01153000"]
        (.received ⟨none, "BrasilAPI", some "connection refused", 7⟩) [] =
      .ran ⟨.apiError "BrasilAPI" "connection refused", none, false⟩ :=
  (first_arrival_decides ["cmd", "01153000"] (by decide)
      ⟨none, "BrasilAPI", some "connection refused", 7⟩
      ⟨none, "ViaCEP", none⟩ []).1 "connection refused" rfl

/-- C2: the shared cancellation deadline is `1*time.Second` — exactly one
second (10^9 ns) — in both variants, and when it fires before any channel
value arrives the coordinator reports the timeout failure and, on this path,
performs no further blocking call: no channel drain and no aggregation in the
aggregating variant, and the simpler variant's `select` simply ends. -/
theorem deadline_one_second_then_timeout (timings : List (String × Nat)) :
    Main.contextTimeoutNanos = 1000000000 ∧
    Simple.contextTimeoutNanos = 1000000000 ∧
    Main.mainRun .ctxDone timings = ⟨.timeoutMessage, none, false⟩ ∧
    Simple.mainSelect .ctxDone = .timeoutMessage :=
  ⟨rfl, rfl, rfl, rfl⟩

/-- C3: every lookup-task invocation publishes exactly one response on the
completion channel before returning, on every control-flow path the oracle can
force (request-build error, transport error, non-2xx status, body-read error,
decode error, success): no duplicate and no dropped results, per backend per
invocation, in both variants. -/
theorem exactly_one_publish (envB : NetEnv BrasilAPICEP) (envV : NetEnv ViaCEP) :
    Main.sendCount (Main.fetchBrasilAPI envB) = 1 ∧
    Main.sendCount (Main.fetchViaCEP envV) = 1 ∧
    Simple.sendCount (Simple.fetchBrasilAPI envB) = 1 ∧
    Simple.sendCount (Simple.fetchViaCEP envV) = 1 :=
  ⟨Main.sendCount_fetchBrasilAPI envB, Main.sendCount_fetchViaCEP envV,
   Simple.sendCount_fetchBrasilAPI_s envB, Simple.sendCount_fetchViaCEP_s envV⟩

/-- C7: in both variants the completion channel is created with buffer capacity
equal to the number of launched lookup goroutines (2), and since each producer
sends exactly once on every path, the total number of sends never exceeds the
capacity — every send can complete without a matching receive, so no lookup
task blocks after the coordinator stops reading. -/
theorem channel_capacity_covers_all_sends (envB : NetEnv BrasilAPICEP)
    (envV : NetEnv ViaCEP) :
    Main.resultChanCapacity = Main.numLookupTasks ∧
    Simple.resultChanCapacity = Simple.numLookupTasks ∧
    Main.sendCount (Main.fetchBrasilAPI envB) + Main.sendCount (Main.fetchViaCEP envV)
      ≤ Main.resultChanCapacity ∧
    Simple.sendCount (Simple.fetchBrasilAPI envB)
        + Simple.sendCount (Simple.fetchViaCEP envV)
      ≤ Simple.resultChanCapacity := by
  refine ⟨rfl, rfl, ?_, ?_⟩
  · rw [Main.sendCount_fetchBrasilAPI, Main.sendCount_fetchViaCEP]; decide
  · rw [Simple.sendCount_fetchBrasilAPI_s, Simple.sendCount_fetchViaCEP_s]; decide

/-- C8: the per-backend schema mapping is deterministic and field-correct:
BrasilAPI's cep/state/city/neighborhood/street and ViaCEP's
cep/uf/localidade/bairro/logradouro land in the postal-code, state, city,
neighborhood and street positions of the printed block respectively, with no
reordering and no loss, for every fixed decoded payload. -/
theorem schema_mapping_deterministic (db : BrasilAPICEP) (dv : ViaCEP) :
    printAddr (some (.brasil db)) =
      some ⟨db.Cep, db.State, db.City, db.Neighborhood, db.Street⟩ ∧
    printAddr (some (.via dv)) =
      some ⟨dv.Cep, dv.Uf, dv.Localidade, dv.Bairro, dv.Logradouro⟩ ∧
    addressLines ⟨db.Cep, db.State, db.City, db.Neighborhood, db.Street⟩ =
      ["CEP: " ++ db.Cep, "Estado: " ++ db.State, "Cidade: " ++ db.City,
       "Bairro: " ++ db.Neighborhood, "Rua: " ++ db.Street] ∧
    addressLines ⟨dv.Cep, dv.Uf, dv.Localidade, dv.Bairro, dv.Logradouro⟩ =
      ["CEP: " ++ dv.Cep, "Estado: " ++ dv.Uf, "Cidade: " ++ dv.Localidade,
       "Bairro: " ++ dv.Bairro, "Rua: " ++ dv.Logradouro] :=
  ⟨rfl, rfl, rfl, rfl⟩

/-- C10: in the aggregating variant, when the first value received carries an
error or the deadline fires first, `main` returns before the aggregation
goroutine is spawned, so the comparative-timing block is never produced — even
when the timing map already holds recorded durations. -/
theorem no_comparison_after_failed_race (r : Main.Response)
    (timings : List (String × Nat)) :
    (r.Error.isSome → (Main.mainRun (.received r) timings).aggReport = none) ∧
    (Main.mainRun .ctxDone timings).aggReport = none := by
  constructor
  · intro h
    rcases he : r.Error with _ | e
    · rw [he] at h; simp at h
    · simp [Main.mainRun, he]
  · rfl

/-- Witness for C10: a first-arriving ViaCEP failure suppresses the comparison
even though both backends have timing entries recorded. -/
theorem no_comparison_after_failed_race_witness :
    (Main.mainRun (.received ⟨none, "ViaCEP", some "status code: 404", 3⟩)
        [("BrasilAPI", 5), ("ViaCEP", 9)]).aggReport = none :=
  (no_comparison_after_failed_race ⟨none, "ViaCEP", some "status code: 404", 3⟩
      [("BrasilAPI", 5), ("ViaCEP", 9)]).1 rfl

/-- C4: in the aggregating variant, with entries for both backends in the
timing map (in either map-iteration order), the reported fastest is the entry
with the smaller duration, the reported slowest the entry with the larger one,
and the reported difference is exactly slowest minus fastest; with fewer than
two entries the aggregator reports that the comparison is unavailable. -/
theorem aggregation_minmax_difference (a b : String) (da db : Nat)
    (ha : a ≠ "") (hb : b ≠ "") (hlt : da < db) :
    Main.aggregate [(a, da), (b, db)] =
      .comparison a da b db ((db : Int) - (da : Int)) ∧
    Main.aggregate [(b, db), (a, da)] =
      .comparison a da b db ((db : Int) - (da : Int)) ∧
    (∀ l : List (String × Nat), l.length ≤ 1 → Main.aggregate l = .unavailable) := by
  have hnlt : ¬ db < da := Nat.not_lt.mpr (Nat.le_of_lt hlt)
  refine ⟨?_, ?_, fun l hl => ?_⟩
  · simp [Main.aggregate, Main.aggLoop, ha, hb, hlt, hnlt]
  · simp [Main.aggregate, Main.aggLoop, ha, hb, hlt, hnlt]
  · have hng : ¬ l.length > 1 := by omega
    simp [Main.aggregate, hng]

/-- Witness for C4 with concrete durations 5ns and 9ns. -/
theorem aggregation_minmax_difference_witness :
    Main.aggregate [("BrasilAPI", 5), ("ViaCEP", 9)] =
      .comparison "BrasilAPI" 5 "ViaCEP" 9 4 :=
  ((aggregation_minmax_difference "BrasilAPI" "ViaCEP" 5 9
      (by decide) (by decide) (by decide)).1).trans (by decide)

/-- C5: each of the five failure kinds — request construction, transport,
non-success HTTP status, body read, JSON decode — makes the lookup task publish
a response whose error field is set and whose API-name field names the backend;
the non-success-status case carries the numeric status code in its error
message; in every case that single error send is all the task publishes (it is
terminal, with no retry).  Stated for both backends in both variants. -/
theorem failure_taxonomy (envB : NetEnv BrasilAPICEP) (envV : NetEnv ViaCEP) :
    (∀ e, envB.newRequest = .error e →
      Main.sends (Main.fetchBrasilAPI envB) = [⟨none, "BrasilAPI", some e, envB.elapsed⟩] ∧
      Simple.sends (Simple.fetchBrasilAPI envB) = [⟨none, "BrasilAPI", some e⟩]) ∧
    (∀ e, envV.newRequest = .error e →
      Main.sends (Main.fetchViaCEP envV) = [⟨none, "ViaCEP", some e, envV.elapsed⟩] ∧
      Simple.sends (Simple.fetchViaCEP envV) = [⟨none, "ViaCEP", some e⟩]) ∧
    (∀ e, envB.newRequest = .ok () → envB.doResult = .error e →
      Main.sends (Main.fetchBrasilAPI envB) = [⟨none, "BrasilAPI", some e, envB.elapsed⟩] ∧
      Simple.sends (Simple.fetchBrasilAPI envB) = [⟨none, "BrasilAPI", some e⟩]) ∧
    (∀ e, envV.newRequest = .ok () → envV.doResult = .error e →
      Main.sends (Main.fetchViaCEP envV) = [⟨none, "ViaCEP", some e, envV.elapsed⟩] ∧
      Simple.sends (Simple.fetchViaCEP envV) = [⟨none, "ViaCEP", some e⟩]) ∧
    (∀ resp, envB.newRequest = .ok () → envB.doResult = .ok resp →
        resp.statusCode ≠ 200 →
      Main.sends (Main.fetchBrasilAPI envB) =
        [⟨none, "BrasilAPI", some ("status code: " ++ toString resp.statusCode),
          envB.elapsed⟩] ∧
      Simple.sends (Simple.fetchBrasilAPI envB) =
        [⟨none, "BrasilAPI", some ("status code: " ++ toString resp.statusCode)⟩]) ∧
    (∀ resp, envV.newRequest = .ok () → envV.doResult = .ok resp →
        resp.statusCode ≠ 200 →
      Main.sends (Main.fetchViaCEP envV) =
        [⟨none, "ViaCEP", some ("status code: " ++ toString resp.statusCode),
          envV.elapsed⟩] ∧
      Simple.sends (Simple.fetchViaCEP envV) =
        [⟨none, "ViaCEP", some ("status code: " ++ toString resp.statusCode)⟩]) ∧
    (∀ resp e, envB.newRequest = .ok () → envB.doResult = .ok resp →
        resp.statusCode = 200 → resp.readAll = .error e →
      Main.sends (Main.fetchBrasilAPI envB) = [⟨none, "BrasilAPI", some e, envB.elapsed⟩] ∧
      Simple.sends (Simple.fetchBrasilAPI envB) = [⟨none, "BrasilAPI", some e⟩]) ∧
    (∀ resp e, envV.newRequest = .ok () → envV.doResult = .ok resp →
        resp.statusCode = 200 → resp.readAll = .error e →
      Main.sends (Main.fetchViaCEP envV) = [⟨none, "ViaCEP", some e, envV.elapsed⟩] ∧
      Simple.sends (Simple.fetchViaCEP envV) = [⟨none, "ViaCEP", some e⟩]) ∧
    (∀ resp body e, envB.newRequest = .ok () → envB.doResult = .ok resp →
        resp.statusCode = 200 → resp.readAll = .ok body →
        envB.unmarshal body = .error e →
      Main.sends (Main.fetchBrasilAPI envB) = [⟨none, "BrasilAPI", some e, envB.elapsed⟩] ∧
      Simple.sends (Simple.fetchBrasilAPI envB) = [⟨none, "BrasilAPI", some e⟩]) ∧
    (∀ resp body e, envV.newRequest = .ok () → envV.doResult = .ok resp →
        resp.statusCode = 200 → resp.readAll = .ok body →
        envV.unmarshal body = .error e →
      Main.sends (Main.fetchViaCEP envV) = [⟨none, "ViaCEP", some e, envV.elapsed⟩] ∧
      Simple.sends (Simple.fetchViaCEP envV) = [⟨none, "ViaCEP", some e⟩]) := by
  refine ⟨fun e h => ⟨?_, ?_⟩, fun e h => ⟨?_, ?_⟩,
    fun e h1 h2 => ⟨?_, ?_⟩, fun e h1 h2 => ⟨?_, ?_⟩,
    fun resp h1 h2 h3 => ⟨?_, ?_⟩, fun resp h1 h2 h3 => ⟨?_, ?_⟩,
    fun resp e h1 h2 h3 h4 => ⟨?_, ?_⟩, fun resp e h1 h2 h3 h4 => ⟨?_, ?_⟩,
    fun resp body e h1 h2 h3 h4 h5 => ⟨?_, ?_⟩,
    fun resp body e h1 h2 h3 h4 h5 => ⟨?_, ?_⟩⟩ <;>
  simp [Main.fetchBrasilAPI, Main.fetchViaCEP, Simple.fetchBrasilAPI,
    Simple.fetchViaCEP, Main.sends, Simple.sends, *]

/-- Witness for C5 at a concrete non-2xx status: the single published response
names the backend and carries the numeric status code in its error. -/
theorem failure_taxonomy_witness :
    Main.sends (Main.fetchBrasilAPI
        ⟨.ok (), .ok ⟨404, .ok ""⟩, fun _ => .error "x", 3⟩) =
      [⟨none, "BrasilAPI", some ("status code: " ++ toString 404), 3⟩] :=
  ((failure_taxonomy ⟨.ok (), .ok ⟨404, .ok ""⟩, fun _ => .error "x", 3⟩
      ⟨.ok (), .ok ⟨404, .ok ""⟩, fun _ => .error "x", 3⟩).2.2.2.2.1
    ⟨404, .ok ""⟩ rfl rfl (by decide)).1

/-- C6: in the aggregating variant a lookup task writes its duration into the
shared timing map only on the success path, and there it does so before
publishing its success response (the full success trace is network call, body
read, lock, map write, unlock, send, in that order, and no trace ever has a
map write after a send); a task that fails for any reason performs no timing
write at all, so its failure shows up only as a missing entry. -/
theorem timing_written_only_on_success (envB : NetEnv BrasilAPICEP)
    (envV : NetEnv ViaCEP) :
    (successData? envB = none → Main.mapWrites (Main.fetchBrasilAPI envB) = []) ∧
    (successData? envV = none → Main.mapWrites (Main.fetchViaCEP envV) = []) ∧
    (∀ d, successData? envB = some d →
      Main.fetchBrasilAPI envB =
        [.netCall, .bodyRead, .lock, .mapWrite "BrasilAPI" envB.elapsed, .unlock,
         .send ⟨some (.brasil d), "BrasilAPI", none, envB.elapsed⟩]) ∧
    (∀ d, successData? envV = some d →
      Main.fetchViaCEP envV =
        [.netCall, .bodyRead, .lock, .mapWrite "ViaCEP" envV.elapsed, .unlock,
         .send ⟨some (.via d), "ViaCEP", none, envV.elapsed⟩]) ∧
    Main.noWriteAfterSend (Main.fetchBrasilAPI envB) = true ∧
    Main.noWriteAfterSend (Main.fetchViaCEP envV) = true :=
  ⟨Main.mapWrites_fetchBrasilAPI_of_fail envB,
   Main.mapWrites_fetchViaCEP_of_fail envV,
   fun d h => Main.fetchBrasilAPI_success envB d h,
   fun d h => Main.fetchViaCEP_success envV d h,
   Main.noWriteAfterSend_fetchBrasilAPI envB,
   Main.noWriteAfterSend_fetchViaCEP envV⟩

/-- Witness for C6 at a concrete all-steps-succeed oracle: the trace locks,
writes the timing entry, unlocks, and only then sends the success response. -/
theorem timing_written_only_on_success_witness :
    Main.fetchBrasilAPI
        ⟨.ok (), .ok ⟨200, .ok "body"⟩,
         fun _ => .ok ⟨"01153000", "SP", "Sao Paulo", "Barra Funda", "Rua X", "cep"⟩, 5⟩ =
      [.netCall, .bodyRead, .lock, .mapWrite "BrasilAPI" 5, .unlock,
       .send ⟨some (.brasil ⟨"01153000", "SP", "Sao Paulo", "Barra Funda", "Rua X", "cep"⟩),
              "BrasilAPI", none, 5⟩] :=
  (timing_written_only_on_success
      ⟨.ok (), .ok ⟨200, .ok "body"⟩,
       fun _ => .ok ⟨"01153000", "SP", "Sao Paulo", "Barra Funda", "Rua X", "cep"⟩, 5⟩
      ⟨.ok (), .ok ⟨200, .ok "b"⟩,
       fun _ => .ok ⟨"01001000", "R", "C", "B", "SP", "SE", "i", "g", "d", "s"⟩, 9⟩).2.2.1
    ⟨"01153000", "SP", "Sao Paulo", "Barra Funda", "Rua X", "cep"⟩ rfl

/-- C9: each fetch trace obeys the mutex discipline — the lock is held exactly
around the single timing-map insert, never across the network call, the body
read or the channel send, and is always released — and when both tasks
succeed, applying their (whole-write-serialized) map writes in either order to
the empty map yields a map holding both backends' entries with their recorded
durations: no entry is corrupted or lost. -/
theorem mutex_guarded_timing_map (envB : NetEnv BrasilAPICEP)
    (envV : NetEnv ViaCEP) :
    Main.lockDiscipline (Main.fetchBrasilAPI envB) false = true ∧
    Main.lockDiscipline (Main.fetchViaCEP envV) false = true ∧
    (∀ dB dV, successData? envB = some dB → successData? envV = some dV →
      ∀ ws,
        (ws = Main.mapWrites (Main.fetchBrasilAPI envB)
                ++ Main.mapWrites (Main.fetchViaCEP envV) ∨
         ws = Main.mapWrites (Main.fetchViaCEP envV)
                ++ Main.mapWrites (Main.fetchBrasilAPI envB)) →
        Main.mapLookup (Main.applyWrites ws []) "BrasilAPI" = some envB.elapsed ∧
        Main.mapLookup (Main.applyWrites ws []) "ViaCEP" = some envV.elapsed) := by
  refine ⟨Main.lockDiscipline_fetchBrasilAPI envB,
    Main.lockDiscipline_fetchViaCEP envV, fun dB dV hB hV ws hws => ?_⟩
  have hwB : Main.mapWrites (Main.fetchBrasilAPI envB) = [("BrasilAPI", envB.elapsed)] := by
    rw [Main.fetchBrasilAPI_success envB dB hB]; rfl
  have hwV : Main.mapWrites (Main.fetchViaCEP envV) = [("ViaCEP", envV.elapsed)] := by
    rw [Main.fetchViaCEP_success envV dV hV]; rfl
  rcases hws with h | h <;> subst h <;> rw [hwB, hwV] <;>
    simp [Main.applyWrites, Main.mapStore, Main.mapLookup, List.find?]

/-- Witness for C9: with both backends succeeding (durations 5ns and 9ns), the
timing map ends up with both entries whichever task inserts first. -/
theorem mutex_guarded_timing_map_witness :
    Main.mapLookup
        (Main.applyWrites ([("BrasilAPI", 5)] ++ [("ViaCEP", 9)]) []) "BrasilAPI" =
      some 5 := by
  have h := (mutex_guarded_timing_map
      ⟨.ok (), .ok ⟨200, .ok "body"⟩,
       fun _ => .ok ⟨"01153000", "SP", "Sao Paulo", "Barra Funda", "Rua X", "cep"⟩, 5⟩
      ⟨.ok (), .ok ⟨200, .ok "b"⟩,
       fun _ => .ok ⟨"01001000", "R", "C", "B", "SP", "SE", "i", "g", "d", "s"⟩, 9⟩).2.2
    ⟨"01153000", "SP", "Sao Paulo", "Barra Funda", "Rua X", "cep"⟩
    ⟨"01001000", "R", "C", "B", "SP", "SE", "i", "g", "d", "s"⟩ rfl rfl
    ([("BrasilAPI", 5)] ++ [("ViaCEP", 9)]) (Or.inl rfl)
  exact h.1
